import Mathlib

/-!
Formalisation of the SuperAgent orchestration backend.

Shallow embedding of the agent routing and orchestration logic:

* `determineContentType`  -- backend/agents/super_agent.py, determine_content_type
* `getToolSequence`       -- backend/agents/super_agent.py, _get_tool_sequence
* `updateConfidence`      -- backend/agents/super_agent.py, _update_agent_performance
* `updateMemory`          -- backend/agents/super_agent.py, _update_memory
* `baseGenerate`          -- backend/agents/base_agent.py, BaseAgent.generate
* `fallbackGenerate`      -- backend/agents/fallback_agent.py, FallbackAgent.generate
* `mergeSearchResults`    -- backend/agents/serper_agent.py, _generate_search_response
* `registerTool`          -- backend/agents/shared_tools.py, ToolRegistry.register_tool
* `baseToolId`            -- backend/agents/base_agent.py, BaseAgent.register_tool
* `getAgentForType`       -- backend/agents/super_agent.py, get_agent_for_type

Python dictionaries are embedded as association lists with the keys in
insertion order and unique; Python floats appearing in decision logic are
embedded as rationals. Calls into the Python standard library whose results
the code merely consumes (json.loads) are passed in as oracle arguments, so
theorems quantify over every outcome those calls could produce.
-/

/-- Embedding of the JSON values produced by json.loads: null, booleans,
numbers (as rationals), strings, arrays, and objects (association lists
with unique keys, in insertion order). -/
inductive PyJson : Type
  | null : PyJson
  | bool (b : Bool) : PyJson
  | num (q : ℚ) : PyJson
  | str (s : String) : PyJson
  | arr (elems : List PyJson) : PyJson
  | obj (fields : List (String × PyJson)) : PyJson

/-- First association-list binding for a key (python dict lookup; parsed
objects have unique keys, so first match is the binding). -/
def assocFind {β : Type} : List (String × β) → String → Option β
  | [], _ => none
  | (k, v) :: rest, key => if k = key then some v else assocFind rest key

/-- Python subscript access on a parsed JSON object; `none` when the value
is not a dict or the key is absent (a KeyError / TypeError site). -/
def PyJson.lookup : PyJson → String → Option PyJson
  | .obj fields, key => assocFind fields key
  | _, _ => none

/-- Python dict.get with a default value (only reached on dict values). -/
def pyGet (j : PyJson) (key : String) (default : PyJson) : PyJson :=
  (j.lookup key).getD default

/-- Is the value a JSON object (a Python dict)? -/
def PyJson.isObj : PyJson → Bool
  | .obj _ => true
  | _ => false

/-- Numeric reading of a JSON value as Python uses it in an order
comparison against a float: numbers compare directly, booleans compare as
0/1, anything else raises TypeError (`none`). -/
def numericValue : PyJson → Option ℚ
  | .num q => some q
  | .bool b => some (if b then 1 else 0)
  | _ => none

/-- Python regex class backslash-s over ASCII input. -/
def isPySpace (c : Char) : Bool :=
  c = ' ' || c = '\t' || c = '\n' || c = '\r' || c = '\x0b' || c = '\x0c'

/-- Match a literal character sequence and return the rest of the input. -/
def stripLiteral : List Char → List Char → Option (List Char)
  | [], rest => some rest
  | _ :: _, [] => none
  | p :: ps, c :: cs => if c = p then stripLiteral ps cs else none

/-- ASCII lowering, the effect of str.lower on the ASCII labels the
classifier compares against. -/
def asciiLower (s : String) : String :=
  String.mk (s.data.map Char.toLower)

/-- Attempt, at the current position, the pattern
quote content_type quote colon, backslash-s star, quote, one or more
non-quote characters (captured), quote -- the re.search pattern of
determine_content_type. -/
def matchContentTypeAt (l : List Char) : Option String :=
  match stripLiteral ("\"content_type\":".data) l with
  | none => none
  | some rest =>
    match rest.dropWhile isPySpace with
    | '"' :: rest2 =>
      match rest2.takeWhile (fun c => c != '"'), rest2.dropWhile (fun c => c != '"') with
      | [], _ => none
      | captured, '"' :: _ => some (String.mk captured)
      | _, _ => none
    | _ => none

/-- Leftmost match of the content_type pattern (re.search scans left to
right). -/
def searchContentType : List Char → Option String
  | [] => none
  | c :: cs =>
    match matchContentTypeAt (c :: cs) with
    | some r => some r
    | none => searchContentType cs

/-- re.search for the content_type field over a whole string. -/
def reSearchContentType (s : String) : Option String :=
  searchContentType s.data

/-- The fixed category labels of determine_content_type (valid_types). -/
def validTypes : List String :=
  ["thesis", "twitter", "financial", "product", "fallback"]

/-- Regex recovery branch of determine_content_type: extract the label via
the content_type pattern, lowercase it, default to fallback. -/
def regexRecover (content : String) : String :=
  match reSearchContentType content with
  | some ct => asciiLower ct
  | none => "fallback"

/-- Strict branch of determine_content_type after json.loads succeeded on
the message content: read content_type (default fallback) which must be a
string (else AttributeError on lower, caught, yielding fallback), read
confidence (default 0.0) which must be numeric (else TypeError on the
comparison, caught, yielding fallback), and force fallback when the
confidence is below 0.5. A non-dict parse raises on .get (caught). -/
def strictResolve (parsed : PyJson) : String :=
  match parsed with
  | .obj _ =>
    match pyGet parsed "content_type" (.str "fallback") with
    | .str ct =>
      match numericValue (pyGet parsed "confidence" (.num 0)) with
      | some q => if q < 1/2 then "fallback" else asciiLower ct
      | none => "fallback"
    | _ => "fallback"
  | _ => "fallback"

/-- Branch of determine_content_type taken when the response object has no
json attribute: parse str(response); on success read content_type
(no confidence check in this branch), on JSONDecodeError fall back to the
regex extraction. -/
def rawResolve (parsed : PyJson) : String :=
  match parsed with
  | .obj _ =>
    match pyGet parsed "content_type" (.str "fallback") with
    | .str ct => asciiLower ct
    | _ => "fallback"
  | _ => "fallback"

/-- The check isinstance(result, dict) and choices in result. -/
def isDictWithChoices : PyJson → Bool
  | .obj fields => (assocFind fields "choices").isSome
  | _ => false

/-- Navigation result choices 0 message content, requiring a string at the
end; `none` stands for the IndexError / KeyError / TypeError raised on any
other shape (caught by the parse-error handler) and also covers a non-str
content, on which json.loads itself raises TypeError. -/
def choicesContent (result : PyJson) : Option String :=
  match result.lookup "choices" with
  | some (.arr (first :: _)) =>
    match first.lookup "message" with
    | some msg =>
      match msg.lookup "content" with
      | some (.str s) => some s
      | _ => none
    | none => none
  | _ => none

/-- The upstream response as determine_content_type inspects it: either an
object with a json method (its json() result, `none` when that call
raises), or an object without one, used through str(response). -/
inductive UpstreamResponse : Type
  | jsonAttr (result : Option PyJson) : UpstreamResponse
  | noJsonAttr (text : String) : UpstreamResponse

/-- One classification run: either some exception was raised before a
response was obtained (memory access, missing agent key, API failure --
all inside the outer try), or a response was obtained. -/
inductive ClassifyRun : Type
  | fault : ClassifyRun
  | parsed (resp : UpstreamResponse) : ClassifyRun

/-- Label resolution of determine_content_type for an obtained response,
before the final valid_types filter. `loads` is the json.loads oracle. -/
def classifyInner (loads : String → Option PyJson) : UpstreamResponse → String
  | .jsonAttr none => "fallback"
  | .jsonAttr (some result) =>
    if isDictWithChoices result then
      match choicesContent result with
      | none => "fallback"
      | some content =>
        match loads content with
        | some parsed => strictResolve parsed
        | none => regexRecover content
    else "fallback"
  | .noJsonAttr text =>
    match loads text with
    | some parsed => rawResolve parsed
    | none => regexRecover text

/-- determine_content_type: resolve a label, then keep it only when it is
one of the five valid types; any exception escaping to the outer handler
yields fallback. -/
def determineContentType (loads : String → Option PyJson) : ClassifyRun → String
  | .fault => "fallback"
  | .parsed resp =>
    let ct := classifyInner loads resp
    if validTypes.contains ct then ct else "fallback"

/-- The required field set every planned step must carry
(_get_tool_sequence, required_keys). -/
def requiredStepKeys : List String :=
  ["tool_id", "parameters", "reason", "expected_output"]

/-- Membership test `key in step.keys()` on a parsed JSON value. -/
def hasKey (s : PyJson) (key : String) : Bool :=
  (s.lookup key).isSome

/-- Per-step structural check of _get_tool_sequence: the step is a dict,
carries every required key, and its parameters value is itself a dict. -/
def isValidStep (s : PyJson) : Bool :=
  s.isObj && requiredStepKeys.all (hasKey s) &&
    (match s.lookup "parameters" with
     | some (.obj _) => true
     | _ => false)

/-- Sequence validation on the primary parse path of _get_tool_sequence:
the parsed value must be a list and every step must pass the per-step
check; any violation discards the whole sequence. -/
def validateSequence : PyJson → List PyJson
  | .arr steps => if steps.all isValidStep then steps else []
  | _ => []

/-- Outcome of the _get_tool_sequence parsing pipeline up to the first
json.loads call, with the stdlib calls as oracles:

* `apiFault`: an exception anywhere in the body (API call, response
  access), handled by the outermost except which returns the empty list;
* `noArrayMatch`: after stripping code fences, re.findall found no
  bracketed array substring (returns the empty list);
* `firstParse seq`: json.loads succeeded on the comma-cleaned match,
  producing `seq` (then fully validated);
* `firstParseFail recovery`: json.loads raised JSONDecodeError; `recovery`
  is the result of re-parsing after the aggressive cleaning (whitespace
  collapse, quote normalisation, unicode-escape decode), `none` when that
  also fails or raises. -/
inductive PlanParse : Type
  | apiFault : PlanParse
  | noArrayMatch : PlanParse
  | firstParse (seq : PyJson) : PlanParse
  | firstParseFail (recovery : Option PyJson) : PlanParse

/-- _get_tool_sequence: the primary parse path applies the full structural
validation; the aggressive-recovery path only checks that the value is a
list whose elements are all dicts before returning it. -/
def getToolSequence : PlanParse → List PyJson
  | .apiFault => []
  | .noArrayMatch => []
  | .firstParse seq => validateSequence seq
  | .firstParseFail none => []
  | .firstParseFail (some recovered) =>
    match recovered with
    | .arr steps => if steps.all PyJson.isObj then steps else []
    | _ => []

/-- Result of one generation attempt inside BaseAgent.generate: a string
result, any other value together with its json.dumps rendering, or an
exception (which also covers a result json.dumps cannot serialise). -/
inductive GenResult : Type
  | str (s : String) : GenResult
  | other (rendered : String) : GenResult

/-- One loop iteration outcome of BaseAgent.generate. -/
inductive Attempt : Type
  | ok (r : GenResult) : Attempt
  | fail (msg : String) : Attempt

/-- Is the attempt a failure? -/
def isFailAttempt : Attempt → Bool
  | .ok _ => false
  | .fail _ => true

/-- A streamed item: the json.dumps of a dict with a type tag and either a
content payload or an error payload. -/
inductive Chunk : Type
  | content (agentType payload : String) : Chunk
  | error (agentType payload : String) : Chunk
deriving DecidableEq

/-- Split a character list into consecutive slices of 1000, the effect of
the range-based chunking loop in BaseAgent.generate; empty input produces
no slices. -/
def chunkList (l : List Char) : List String :=
  if _hl : l = [] then []
  else String.mk (l.take 1000) :: chunkList (l.drop 1000)
termination_by l.length
decreasing_by
  simp only [List.length_drop]
  have hpos : 0 < l.length := List.length_pos.mpr _hl
  omega

/-- Chunks emitted for one successful result in BaseAgent.generate: a
string is sliced into 1000-character content chunks (none when empty), any
other value becomes a single content chunk of its rendering. -/
def emitResult (agentType : String) : GenResult → List Chunk
  | .str s => (chunkList s.data).map (Chunk.content agentType)
  | .other rendered => [Chunk.content agentType rendered]

/-- BaseAgent.generate over the list of attempt outcomes (the list length
is the max_retries bound, 3 by default): the first success emits its
chunks and ends the stream, a non-final failure retries, and a failure on
the final attempt emits a single error chunk. -/
def baseGenerate (agentType : String) : List Attempt → List Chunk
  | [] => []
  | .ok r :: _ => emitResult agentType r
  | .fail msg :: [] => [Chunk.error agentType ("All attempts failed: " ++ msg)]
  | .fail _ :: a :: rest => baseGenerate agentType (a :: rest)

/-- Terminal error message of FallbackAgent.generate. -/
def fallbackErrMsg : String :=
  "I couldn\x27t determine how to handle your request. Could you please provide more details?"

/-- One run of FallbackAgent.generate: `deltas` lists the streamed lines in
order, `some s` for a data line whose parsed delta carries content `s`,
`none` for lines that are skipped (blank, non-data, unparseable, or
missing content -- the parse errors are caught and the loop continues);
`interrupted` records whether an exception escaped the loop (transport
failure, or a failure before streaming started), which the outer handler
turns into a final error chunk. -/
structure FallbackRun : Type where
  deltas : List (Option String)
  interrupted : Bool

/-- FallbackAgent.generate: content chunks for the deltas that carried
content, in order, followed by one terminal error chunk when an exception
was caught. (The clarification error branch is unreachable:
_generate_clarification always returns a dict without an error key.) -/
def fallbackGenerate (run : FallbackRun) : List Chunk :=
  (run.deltas.filterMap id).map (Chunk.content "fallback") ++
    (if run.interrupted then [Chunk.error "fallback" fallbackErrMsg] else [])

/-- Confidence update of _update_agent_performance: success raises by 0.05
capped at 1.0, failure lowers by 0.05 floored at 0.1. -/
def updateConfidence (c : ℚ) (success : Bool) : ℚ :=
  if success then min 1 (c + 1/20) else max (1/10) (c - 1/20)

/-- Confidence after a sequence of outcomes, from the initial score 0.5 set
in BaseAgent.__init__. -/
def confidenceAfter (events : List Bool) : ℚ :=
  events.foldl updateConfidence (1/2)

/-- Memory store state, most recent record first (the timestamp-descending
order the queries use; records are appended with strictly increasing
timestamps by a single writer). -/
def updateMemory {μ : Type} (store : List μ) (e : μ) : List μ :=
  (e :: store).take 100

/-- Store contents after a sequence of _update_memory appends starting from
an empty store. -/
def memoryAfter {μ : Type} (entries : List μ) : List μ :=
  entries.foldl updateMemory []

/-- Memory append of _update_agent_performance (lines 386-397): the
performance record is inserted and committed with no retention pruning. -/
def performanceAppend {μ : Type} (store : List μ) (e : μ) : List μ :=
  e :: store

/-- One search result record; `title` is r.get with the title key, absent
keys giving none. -/
structure SearchResult : Type where
  title : Option String
  snippet : String
deriving DecidableEq

/-- Merge step of _generate_search_response: keep all previous results and
append only those fetched results whose title is not among the previous
titles. -/
def mergeSearchResults (previous fetched : List SearchResult) : List SearchResult :=
  let existingTitles := previous.map SearchResult.title
  previous ++ fetched.filter (fun r => decide (r.title ∉ existingTitles))

/-- Result list built by _generate_search_response: the merge only runs
when input_data parsed to a non-empty list (`none` covers absent
input_data, a parse failure, and a non-list parse). -/
def generateSearchResults (previous : Option (List SearchResult)) (fetched : List SearchResult) : List SearchResult :=
  match previous with
  | some prev => if prev.isEmpty then fetched else mergeSearchResults prev fetched
  | none => fetched

/-- A registered tool record (shared_tools.SharedTool); the callable is
embedded as an opaque handle so that distinct callables can be compared. -/
structure SharedTool : Type where
  name : String
  description : String
  method : ℕ
  parameters : List (String × String)
  agent_type : String
deriving DecidableEq

/-- Python dict assignment on an association list: replace the binding in
place when the key exists, append otherwise. -/
def dictSet {β : Type} : List (String × β) → String → β → List (String × β)
  | [], k, v => [(k, v)]
  | (k', v') :: rest, k, v =>
    if k' = k then (k, v) :: rest else (k', v') :: dictSet rest k v

/-- ToolRegistry.register_tool: store the tool under agent_type, an
underscore, and name -- unconditionally, with plain dict assignment (any
existing binding for that id is silently replaced; nothing is raised). -/
def registerTool (reg : List (String × SharedTool)) (name description : String)
    (method : ℕ) (parameters : List (String × String)) (agent_type : String) :
    List (String × SharedTool) :=
  dictSet reg (agent_type ++ "_" ++ name)
    ⟨name, description, method, parameters, agent_type⟩

/-- Python str.startswith on the embedded strings. -/
def pyStartsWith (s pre : String) : Bool :=
  pre.data.isPrefixOf s.data

/-- Tool id computed by BaseAgent.register_tool: the agent-type qualifier
is prepended only when the name does not already start with it. -/
def baseToolId (agent_type name : String) : String :=
  if pyStartsWith name (agent_type ++ "_") then name
  else agent_type ++ "_" ++ name

/-- Registry key computed by ToolRegistry.register_tool for a forwarded
tool: the qualifier is always prepended. -/
def sharedToolId (agent_type name : String) : String :=
  agent_type ++ "_" ++ name

/-- get_agent_for_type: dict.get evaluates its default argument first, so a
mapping without a thesis agent raises KeyError before the lookup, and the
except handler raises the same KeyError again (`none`); otherwise the
agent registered for the content type, defaulting to the thesis agent. -/
def getAgentForType {β : Type} (agents : List (String × β)) (content_type : String) : Option β :=
  match assocFind agents "thesis" with
  | none => none
  | some thesisAgent => some ((assocFind agents content_type).getD thesisAgent)

/-- A classifier message content that carries the label thesis and the
numeric confidence 0.2 but, having a trailing comma, makes json.loads
raise JSONDecodeError, sending determine_content_type down the regex
recovery branch. -/
def c1Content : String :=
  "\x7b\"content_type\": \"thesis\", \"confidence\": 0.2,\x7d"

/-- The upstream response.json() value wrapping `c1Content` in the usual
choices 0 message content envelope. -/
def c1Result : PyJson :=
  PyJson.obj [("choices", PyJson.arr
    [PyJson.obj [("message", PyJson.obj [("content", PyJson.str c1Content)])]])]

/-- The JSON object `c1Content` denotes (what a lenient parse would see):
label thesis, numeric confidence 0.2. -/
def c1StrictReading : PyJson :=
  PyJson.obj [("content_type", PyJson.str "thesis"), ("confidence", PyJson.num (1/5))]

/-- A response envelope whose message content strict-parses. -/
def c1WitnessResult : PyJson :=
  PyJson.obj [("choices", PyJson.arr
    [PyJson.obj [("message", PyJson.obj [("content", PyJson.str "classifier reply")])]])]

/-- A plan step that is a dict but misses the required keys parameters,
reason and expected_output. With message content of a bracketed array in
single-quote style, the first json.loads raises, the aggressive cleaning
normalises the quotes, and the re-parse returns this step unvalidated. -/
def c2BadStep : PyJson :=
  PyJson.obj [("tool_id", PyJson.str "x")]

/-- A structurally complete plan step. -/
def c2GoodStep : PyJson :=
  PyJson.obj
    [ ("tool_id", PyJson.str "serper_general_search"),
      ("parameters", PyJson.obj [("query", PyJson.str "recent developments")]),
      ("reason", PyJson.str "gather current information"),
      ("expected_output", PyJson.str "ranked web results") ]

/-- A registered tool with callable handle 0. -/
def toolV1 : SharedTool := ⟨"t", "d", 0, [], "a"⟩

/-- The same tool identity with a different callable handle. -/
def toolV2 : SharedTool := ⟨"t", "d", 1, [], "a"⟩

/-- A prior search result with title B. -/
def searchRecB : SearchResult := ⟨some "B", "prior"⟩

/-- A fetched search result with title A. -/
def searchRecA1 : SearchResult := ⟨some "A", "first"⟩

/-- A second fetched search result with the same title A. -/
def searchRecA2 : SearchResult := ⟨some "A", "second"⟩

/-- The specialized_agents mapping wired in backend/routes.py (agents as
opaque handles, in registration order); note it has no fallback entry. -/
def routesAgents : List (String × ℕ) :=
  [("thesis", 0), ("twitter", 1), ("data_analysis", 2), ("financial", 3), ("product", 4)]

/-- Helper: a fold of confidence updates keeps the score inside the clamp
interval whenever it starts inside it. -/
theorem confidence_fold_bounds (events : List Bool) :
    ∀ c : ℚ, 1/10 ≤ c → c ≤ 1 →
      1/10 ≤ events.foldl updateConfidence c ∧ events.foldl updateConfidence c ≤ 1 := by
  induction events with
  | nil => exact fun c h1 h2 => ⟨h1, h2⟩
  | cons e rest ih =>
    intro c h1 h2
    simp only [List.foldl_cons]
    apply ih
    · cases e with
      | false =>
        simp only [updateConfidence, Bool.false_eq_true, if_false]
        exact le_max_left _ _
      | true =>
        simp only [updateConfidence, if_true]
        exact le_min (by norm_num) (by linarith)
    · cases e with
      | false =>
        simp only [updateConfidence, Bool.false_eq_true, if_false]
        exact max_le (by norm_num) (by linarith)
      | true =>
        simp only [updateConfidence, if_true]
        exact min_le_left _ _

/-- C5: the per-agent confidence score starts at 0.5 and, under any
sequence of success/failure updates, stays within the interval from 0.1 to
1.0: each success adds 0.05 capped at 1.0, each failure subtracts 0.05
floored at 0.1. -/
theorem confidence_score_clamped (events : List Bool) :
    1/10 ≤ confidenceAfter events ∧ confidenceAfter events ≤ 1 ∧
      confidenceAfter [] = 1/2 := by
  have h := confidence_fold_bounds events (1/2) (by norm_num) (by norm_num)
  exact ⟨h.1, h.2, rfl⟩

/-- C3: determine_content_type always returns one of the five fixed labels
and never raises; in particular any fault caught by the outer handler
resolves to fallback. -/
theorem determineContentType_total (loads : String → Option PyJson) (run : ClassifyRun) :
    determineContentType loads run ∈ validTypes ∧
      determineContentType loads ClassifyRun.fault = "fallback" := by
  refine ⟨?_, rfl⟩
  cases run with
  | fault => simp [determineContentType, validTypes]
  | parsed resp =>
    simp only [determineContentType]
    by_cases h : validTypes.contains (classifyInner loads resp) = true
    · rw [if_pos h]
      exact List.mem_of_elem_eq_true h
    · rw [if_neg h]
      simp [validTypes]

/-- Helper: a list is a prefix of itself followed by anything. -/
theorem isPrefixOf_append_self (p s : List Char) : p.isPrefixOf (p ++ s) = true := by
  induction p with
  | nil => simp [List.isPrefixOf]
  | cons c cs ih => simp [List.isPrefixOf, ih]

/-- Helper: startswith holds for a string extended on the right. -/
theorem pyStartsWith_append (pre s : String) : pyStartsWith (pre ++ s) pre = true := by
  unfold pyStartsWith
  rw [String.data_append]
  exact isPrefixOf_append_self _ _

/-- Helper: the shared-registry key strictly extends the forwarded name, so
the two can never be equal. -/
theorem sharedToolId_ne (agent_type k : String) : sharedToolId agent_type k ≠ k := by
  intro h
  have hlen := congrArg String.length h
  have hu : ("_" : String).length = 1 := rfl
  rw [sharedToolId, String.length_append, String.length_append, hu] at hlen
  omega

/-- C9: BaseAgent.register_tool leaves an already-qualified name unchanged,
so every agent-local tool id starts with the agent-type qualifier; but
ToolRegistry.register_tool prepends the qualifier unconditionally, so the
shared-registry key of every tool forwarded by _register_all_agent_tools
is doubly prefixed and never equals the agent-local tool id. -/
theorem shared_registry_key_double_prefixed (agent_type name : String) :
    baseToolId agent_type (agent_type ++ "_" ++ name) = agent_type ++ "_" ++ name
    ∧ pyStartsWith (baseToolId agent_type name) (agent_type ++ "_") = true
    ∧ sharedToolId agent_type (baseToolId agent_type name)
        = agent_type ++ "_" ++ baseToolId agent_type name
    ∧ sharedToolId agent_type (baseToolId agent_type name) ≠ baseToolId agent_type name := by
  refine ⟨?_, ?_, rfl, sharedToolId_ne _ _⟩
  · unfold baseToolId
    rw [if_pos]
    exact pyStartsWith_append _ _
  · unfold baseToolId
    split
    · next h => exact h
    · exact pyStartsWith_append _ _

/-- C10: get_agent_for_type falls back to the thesis agent for any content
type absent from the specialized_agents mapping, provided a thesis agent
is registered. -/
theorem get_agent_unknown_type_defaults_thesis {β : Type}
    (agents : List (String × β)) (content_type : String) (t : β)
    (hthesis : assocFind agents "thesis" = some t)
    (habsent : assocFind agents content_type = none) :
    getAgentForType agents content_type = some t := by
  unfold getAgentForType
  rw [hthesis, habsent]
  rfl

/-- C10 witness: with the mapping wired in routes.py (which registers no
fallback agent), asking for the fallback category returns the thesis
agent. -/
theorem get_agent_unknown_type_defaults_thesis_witness :
    getAgentForType routesAgents "fallback" = some 0 :=
  get_agent_unknown_type_defaults_thesis routesAgents "fallback" 0 rfl rfl

/-- Helper: a lookup after a dict assignment on the same key returns the
assigned value. -/
theorem assocFind_dictSet_self {β : Type} (m : List (String × β)) (k : String) (v : β) :
    assocFind (dictSet m k v) k = some v := by
  induction m with
  | nil => simp [dictSet, assocFind]
  | cons p rest ih =>
    by_cases h : p.1 = k
    · simp [dictSet, h, assocFind]
    · simp [dictSet, h, assocFind, ih]

/-- Helper: assigning a value that is already the binding of the key leaves
the dict unchanged. -/
theorem dictSet_of_find_eq {β : Type} (m : List (String × β)) (k : String) (v : β)
    (h : assocFind m k = some v) : dictSet m k v = m := by
  induction m with
  | nil => simp [assocFind] at h
  | cons p rest ih =>
    obtain ⟨k1, v1⟩ := p
    rw [assocFind] at h
    by_cases hk : k1 = k
    · rw [if_pos hk] at h
      simp only [Option.some.injEq] at h
      subst hk
      subst h
      simp [dictSet]
    · rw [if_neg hk] at h
      simp [dictSet, hk, ih h]

/-- C8 amended: ToolRegistry.register_tool has no failure outcome; it
stores the tool under the qualified id with plain dict assignment, so an
existing binding is silently replaced, and re-registering an identical
tool leaves the registry unchanged (idempotent). -/
theorem register_tool_overwrite_semantics (reg : List (String × SharedTool))
    (name description : String) (method : ℕ)
    (parameters : List (String × String)) (agent_type : String) :
    (assocFind reg (agent_type ++ "_" ++ name)
        = some ⟨name, description, method, parameters, agent_type⟩ →
      registerTool reg name description method parameters agent_type = reg)
    ∧ assocFind (registerTool reg name description method parameters agent_type)
        (agent_type ++ "_" ++ name)
        = some ⟨name, description, method, parameters, agent_type⟩ := by
  constructor
  · intro h
    exact dictSet_of_find_eq _ _ _ h
  · exact assocFind_dictSet_self _ _ _

/-- C8 witness: re-registering the identical tool is a no-op, and a fresh
registration is retrievable under the qualified id. -/
theorem register_tool_overwrite_semantics_witness :
    registerTool [("a_t", toolV1)] "t" "d" 0 [] "a" = [("a_t", toolV1)]
    ∧ assocFind (registerTool [] "t" "d" 0 [] "a") "a_t" = some toolV1 :=
  ⟨(register_tool_overwrite_semantics [("a_t", toolV1)] "t" "d" 0 [] "a").1 rfl,
   (register_tool_overwrite_semantics [] "t" "d" 0 [] "a").2⟩

/-- C8 counterexample: registering a tool whose qualified id already exists
with a different callable does not fail with any DuplicateToolError (the
code has no such error path); the registration succeeds and silently
replaces the stored tool. -/
theorem register_tool_no_duplicate_error :
    registerTool [("a_t", toolV1)] "t" "d" 1 [] "a" = [("a_t", toolV2)]
    ∧ toolV1 ≠ toolV2 := by
  refine ⟨rfl, by decide⟩

/-- Helper: truncating the right operand of an append before taking n
elements changes nothing. -/
theorem take_append_take {μ : Type} (a b : List μ) (n : ℕ) :
    (a ++ b.take n).take n = (a ++ b).take n := by
  rw [List.take_append_eq_append_take, List.take_append_eq_append_take, List.take_take]
  congr 1
  rw [min_eq_left (Nat.sub_le _ _)]

/-- Helper: folding _update_memory appends over any starting store of at
most 100 records keeps exactly the 100 most recent records (most recent
first). -/
theorem memory_fold {μ : Type} (entries : List μ) :
    ∀ store : List μ, store.length ≤ 100 →
      entries.foldl updateMemory store = (entries.reverse ++ store).take 100 := by
  induction entries with
  | nil =>
    intro store h
    simp [List.take_of_length_le h]
  | cons e rest ih =>
    intro store h
    simp only [List.foldl_cons, updateMemory]
    rw [ih ((e :: store).take 100) (by simp)]
    rw [take_append_take]
    simp

/-- C6 amended: each append performed through _update_memory prunes the
store to the 100 most-recent records, so after more than 100 such appends
exactly the 100 most-recent records remain retrievable. -/
theorem memory_retention_bound {μ : Type} (entries : List μ)
    (h : 100 < entries.length) :
    memoryAfter entries = entries.reverse.take 100 ∧
      (memoryAfter entries).length = 100 := by
  have hm : memoryAfter entries = entries.reverse.take 100 := by
    have hf := memory_fold entries ([] : List μ) (by simp)
    simpa [memoryAfter] using hf
  refine ⟨hm, ?_⟩
  rw [hm, List.length_take, List.length_reverse]
  omega

/-- C6 witness: after 101 appends through _update_memory exactly the 100
most-recent records remain. -/
theorem memory_retention_bound_witness :
    memoryAfter (List.range 101) = (List.range 101).reverse.take 100 ∧
      (memoryAfter (List.range 101)).length = 100 :=
  memory_retention_bound (List.range 101) (by simp)

/-- C6 counterexample: the append performed by _update_agent_performance
(lines 386-397) inserts its performance record with no retention pruning,
so immediately after that append 101 records remain retrievable even
though more than 100 appends have happened -- the claimed bound fails for
that appending site. -/
theorem performance_append_skips_pruning :
    (performanceAppend (memoryAfter (List.range 100)) 1000).length = 101 ∧
      (performanceAppend (memoryAfter (List.range 100)) 1000).length ≠ 100 := by
  have h100 : (memoryAfter (List.range 100)).length = 100 := by
    have hf := memory_fold (List.range 100) ([] : List ℕ) (by simp)
    have hm : memoryAfter (List.range 100) = (List.range 100).reverse.take 100 := by
      simpa [memoryAfter] using hf
    rw [hm, List.length_take, List.length_reverse, List.length_range]
    simp
  constructor
  · simp [performanceAppend, h100]
  · simp [performanceAppend, h100]

/-- C7 counterexample: the merge only filters fetched titles against the
previous titles, so two fetched records sharing a title both survive and
the merged list carries a duplicate title key. -/
theorem merge_duplicate_title :
    generateSearchResults (some [searchRecB]) [searchRecA1, searchRecA2]
      = [searchRecB, searchRecA1, searchRecA2]
    ∧ ¬ ((generateSearchResults (some [searchRecB]) [searchRecA1, searchRecA2]).map
          SearchResult.title).Nodup := by
  constructor
  · rfl
  · decide

/-- C7 amended: whenever the previous results and the newly fetched results
each carry pairwise-distinct titles, the merged list carries
pairwise-distinct titles: the merge keeps prior records and appends only
fetched records whose title was not previously seen. -/
theorem merge_nodup_titles (previous fetched : List SearchResult)
    (hp : (previous.map SearchResult.title).Nodup)
    (hf : (fetched.map SearchResult.title).Nodup) :
    ((mergeSearchResults previous fetched).map SearchResult.title).Nodup := by
  unfold mergeSearchResults
  rw [List.map_append, List.nodup_append]
  refine ⟨hp, ?_, ?_⟩
  · exact hf.sublist ((List.filter_sublist fetched).map SearchResult.title)
  · intro t ht ht'
    rcases List.mem_map.mp ht' with ⟨r, hr, hrt⟩
    have hrf := List.mem_filter.mp hr
    have hnotin : r.title ∉ previous.map SearchResult.title := of_decide_eq_true hrf.2
    exact hnotin (hrt ▸ ht)

/-- C7 witness: merging a fresh title into distinct prior titles keeps the
titles pairwise distinct. -/
theorem merge_nodup_titles_witness :
    ((mergeSearchResults [searchRecB] [searchRecA1]).map SearchResult.title).Nodup :=
  merge_nodup_titles [searchRecB] [searchRecA1] (by decide) (by decide)

/-- Helper: reduction of determine_content_type on an obtained response. -/
theorem determineContentType_parsed (loads : String → Option PyJson) (resp : UpstreamResponse) :
    determineContentType loads (ClassifyRun.parsed resp) =
      if validTypes.contains (classifyInner loads resp) then classifyInner loads resp
      else "fallback" := rfl

/-- C1 counterexample: the upstream reply carries the label thesis together
with the numeric confidence 0.2, but its trailing comma makes json.loads
raise, so the regex recovery extracts the label and the confidence test is
never reached: the category resolves to thesis, not fallback. -/
theorem low_confidence_regex_path_ignores_confidence :
    determineContentType (fun _ => none)
        (ClassifyRun.parsed (UpstreamResponse.jsonAttr (some c1Result))) = "thesis"
    ∧ numericValue (pyGet c1StrictReading "confidence" (PyJson.num 0)) = some (1/5)
    ∧ ((1 : ℚ)/5) < 1/2
    ∧ ("thesis" : String) ≠ "fallback" := by
  refine ⟨?_, rfl, by norm_num, by decide⟩
  rfl

/-- C1 amended: when the message content strict-parses and the parsed
object carries a numeric confidence below 0.5, determine_content_type
resolves to fallback regardless of the stated label; when the strict
parse fails, the regex recovery ignores the confidence. -/
theorem strict_parse_low_confidence_forces_fallback
    (loads : String → Option PyJson) (result parsed : PyJson) (content : String) (q : ℚ)
    (hchoices : isDictWithChoices result = true)
    (hcontent : choicesContent result = some content)
    (hloads : loads content = some parsed)
    (hq : numericValue (pyGet parsed "confidence" (PyJson.num 0)) = some q)
    (hlt : q < 1/2) :
    determineContentType loads
      (ClassifyRun.parsed (UpstreamResponse.jsonAttr (some result))) = "fallback" := by
  have hsr : strictResolve parsed = "fallback" := by
    cases parsed with
    | obj fields =>
      simp only [strictResolve]
      split
      · simp only [hq]
        rw [if_pos hlt]
      · rfl
    | null => rfl
    | bool b => rfl
    | num q2 => rfl
    | str s => rfl
    | arr elems => rfl
  have hinner : classifyInner loads (UpstreamResponse.jsonAttr (some result)) = "fallback" := by
    simp only [classifyInner]
    rw [if_pos hchoices]
    simp only [hcontent, hloads]
    exact hsr
  rw [determineContentType_parsed, hinner]
  rfl

/-- C1 witness: a well-formed reply whose strict parse yields confidence
0.2 with the label thesis resolves to fallback. -/
theorem strict_parse_low_confidence_forces_fallback_witness :
    determineContentType (fun _ => some c1StrictReading)
        (ClassifyRun.parsed (UpstreamResponse.jsonAttr (some c1WitnessResult))) = "fallback" :=
  strict_parse_low_confidence_forces_fallback (fun _ => some c1StrictReading)
    c1WitnessResult c1StrictReading "classifier reply" (1/5) rfl rfl rfl rfl (by norm_num)

/-- Helper: a step passing the full validation is in particular a dict. -/
theorem isValidStep_isObj (s : PyJson) (h : isValidStep s = true) : s.isObj = true := by
  simp only [isValidStep, Bool.and_eq_true] at h
  exact h.1.1

/-- C2 counterexample: message content of a single-quoted bracketed array
fails the first json.loads, the aggressive cleaning normalises the quotes,
and the recovery path returns a non-empty step list whose only step lacks
the required keys parameters, reason and expected_output. -/
theorem plan_recovery_skips_validation :
    getToolSequence (PlanParse.firstParseFail (some (PyJson.arr [c2BadStep]))) = [c2BadStep]
    ∧ hasKey c2BadStep "parameters" = false
    ∧ isValidStep c2BadStep = false :=
  ⟨rfl, rfl, rfl⟩

/-- C2 amended: _get_tool_sequence always returns a list (every exception
is caught and turned into the empty list); every step of any non-empty
returned list is a dict; and on the primary parse path every returned step
carries the full required field set with a dict parameters value -- only
the aggressive-recovery path can return steps missing required keys. -/
theorem plan_sequence_structure :
    (∀ p : PlanParse, ∀ s ∈ getToolSequence p, s.isObj = true)
    ∧ (∀ seq : PyJson, ∀ s ∈ getToolSequence (PlanParse.firstParse seq), isValidStep s = true) := by
  have hfirst : ∀ seq : PyJson, ∀ s ∈ getToolSequence (PlanParse.firstParse seq),
      isValidStep s = true := by
    intro seq s hs
    rw [show getToolSequence (PlanParse.firstParse seq) = validateSequence seq from rfl] at hs
    cases seq with
    | arr steps =>
      simp only [validateSequence] at hs
      by_cases hall : steps.all isValidStep = true
      · rw [if_pos hall] at hs
        exact List.all_eq_true.mp hall s hs
      · rw [if_neg hall] at hs
        exact absurd hs (List.not_mem_nil _)
    | null => simp [validateSequence] at hs
    | bool b => simp [validateSequence] at hs
    | num q => simp [validateSequence] at hs
    | str s2 => simp [validateSequence] at hs
    | obj fields => simp [validateSequence] at hs
  refine ⟨?_, hfirst⟩
  intro p s hs
  cases p with
  | apiFault => simp [getToolSequence] at hs
  | noArrayMatch => simp [getToolSequence] at hs
  | firstParse seq => exact isValidStep_isObj s (hfirst seq s hs)
  | firstParseFail recovery =>
    cases recovery with
    | none => simp [getToolSequence] at hs
    | some recovered =>
      cases recovered with
      | arr steps =>
        simp only [getToolSequence] at hs
        by_cases hall : steps.all PyJson.isObj = true
        · rw [if_pos hall] at hs
          exact List.all_eq_true.mp hall s hs
        · rw [if_neg hall] at hs
          exact absurd hs (List.not_mem_nil _)
      | null => simp [getToolSequence] at hs
      | bool b => simp [getToolSequence] at hs
      | num q => simp [getToolSequence] at hs
      | str s2 => simp [getToolSequence] at hs
      | obj fields => simp [getToolSequence] at hs

/-- C2 witness: a structurally complete plan returned by the primary path
consists of fully validated dict steps. -/
theorem plan_sequence_structure_witness :
    PyJson.isObj c2GoodStep = true ∧ isValidStep c2GoodStep = true :=
  ⟨plan_sequence_structure.1 (PlanParse.firstParse (PyJson.arr [c2GoodStep])) c2GoodStep
      (List.mem_singleton_self c2GoodStep),
   plan_sequence_structure.2 (PyJson.arr [c2GoodStep]) c2GoodStep
      (List.mem_singleton_self c2GoodStep)⟩

/-- Helper: the chunking loop produces no chunks exactly on empty input. -/
theorem chunkList_eq_nil_iff (l : List Char) : chunkList l = [] ↔ l = [] := by
  rcases l with _ | ⟨c, cs⟩
  · simp [chunkList]
  · rw [chunkList]
    simp

/-- Helper: a string has empty character data exactly when it is the empty
string. -/
theorem string_data_eq_nil_iff (s : String) : s.data = [] ↔ s = "" := by
  rw [String.ext_iff]

/-- C4 counterexample: an attempt that succeeds with an empty string result
emits zero chunks and ends the stream -- no terminal item at all, even
though the later attempts would have exhausted the retry bound. -/
theorem generate_empty_result_empty_stream :
    baseGenerate "thesis"
      [Attempt.ok (GenResult.str ""), Attempt.fail "boom", Attempt.fail "boom"] = [] := by
  simp [baseGenerate, emitResult, chunkList]

/-- C4 amended: neither generate stream ever propagates an exception; when
every attempt of BaseAgent.generate fails the stream is exactly one
terminal error chunk; a first successful attempt emits only content chunks
-- at least one for a non-empty string or a non-string result, but none
when the result is the empty string; and FallbackAgent.generate ends with
a terminal error chunk whenever a fault is caught, its stream being empty
exactly when no fault occurred and no delta carried content. -/
theorem streams_terminal_structure :
    (∀ (atype : String) (attempts : List Attempt), attempts ≠ [] →
        (∀ a ∈ attempts, isFailAttempt a = true) →
        ∃ m, baseGenerate atype attempts = [Chunk.error atype ("All attempts failed: " ++ m)])
    ∧ (∀ (atype s : String) (rest : List Attempt),
        baseGenerate atype (Attempt.ok (GenResult.str s) :: rest) = [] ↔ s = "")
    ∧ (∀ (atype rendered : String) (rest : List Attempt),
        baseGenerate atype (Attempt.ok (GenResult.other rendered) :: rest)
          = [Chunk.content atype rendered])
    ∧ (∀ run : FallbackRun,
        fallbackGenerate run = [] ↔ run.deltas.filterMap id = [] ∧ run.interrupted = false)
    ∧ (∀ run : FallbackRun, run.interrupted = true →
        (fallbackGenerate run).getLast? = some (Chunk.error "fallback" fallbackErrMsg)) := by
  refine ⟨?_, ?_, ?_, ?_, ?_⟩
  · intro atype attempts
    induction attempts with
    | nil => intro h; exact absurd rfl h
    | cons a rest ih =>
      intro _ hall
      cases a with
      | ok r =>
        have hfa := hall _ (List.mem_cons_self _ _)
        simp [isFailAttempt] at hfa
      | fail m =>
        cases rest with
        | nil => exact ⟨m, rfl⟩
        | cons b rest2 =>
          have hne : (b :: rest2 : List Attempt) ≠ [] := by simp
          have hall2 : ∀ x ∈ b :: rest2, isFailAttempt x = true := fun x hx =>
            hall x (List.mem_cons_of_mem _ hx)
          simpa [baseGenerate] using ih hne hall2
  · intro atype s rest
    simp only [baseGenerate, emitResult, List.map_eq_nil_iff]
    rw [chunkList_eq_nil_iff, string_data_eq_nil_iff]
  · intro atype rendered rest
    rfl
  · intro run
    cases hi : run.interrupted with
    | false => simp [fallbackGenerate, hi, List.map_eq_nil_iff]
    | true => simp [fallbackGenerate, hi]
  · intro run hi
    simp [fallbackGenerate, hi]

/-- C4 witness: with the default bound of three attempts all failing, the
stream is a single terminal error chunk; an interrupted fallback stream
ends with the terminal error chunk. -/
theorem streams_terminal_structure_witness :
    (∃ m, baseGenerate "thesis" [Attempt.fail "a", Attempt.fail "b", Attempt.fail "c"]
        = [Chunk.error "thesis" ("All attempts failed: " ++ m)])
    ∧ (fallbackGenerate ⟨[some "hi"], true⟩).getLast?
        = some (Chunk.error "fallback" fallbackErrMsg) :=
  ⟨streams_terminal_structure.1 "thesis" [Attempt.fail "a", Attempt.fail "b", Attempt.fail "c"]
      (by simp) (by simp [isFailAttempt]),
   streams_terminal_structure.2.2.2.2 ⟨[some "hi"], true⟩ rfl⟩
